import Mathlib

/-
Verification of the array field layer of django-pgfields
(src/django_pg/models/fields/array.py) against its specification.

The Python module is shallowly embedded below.  Dynamic Python values are
`PyValue`; Python exceptions are `PyErr`; the element codec stored in the
field attribute `_of` is `ElementCodec`, a record of optional attributes
(an absent attribute models a missing Python attribute, so touching it
raises `AttributeError`).  External collaborators that the module calls
but that are not part of this repository (the South migration tool and
the Django `Field` superclass) are abstracted as total function
parameters, and Django `models.IntegerField` is modelled by a constant
whose `db_type` is the PostgreSQL "integer" type.
-/

set_option autoImplicit false

namespace DjangoPG

/-- Dynamic Python values, restricted to the shapes the array module
manipulates: `None`, booleans, integers, strings, lists and tuples. -/
inductive PyValue where
  | none
  | bool (b : Bool)
  | int (n : Int)
  | str (s : String)
  | list (xs : List PyValue)
  | tuple (xs : List PyValue)
deriving Repr

/-- Python exceptions raised (directly or by builtins) on the paths of the
array module. -/
inductive PyErr where
  | typeError (msg : String)
  | valueError (msg : String)
  | attributeError (msg : String)
deriving Repr, DecidableEq

/-- Python truthiness (`bool(v)`), as used by `if not value:`. -/
def PyValue.falsy : PyValue → Bool
  | .none => true
  | .bool b => !b
  | .int n => n == 0
  | .str s => s.data.isEmpty
  | .list xs => xs.isEmpty
  | .tuple xs => xs.isEmpty

/-- The builtin `list(v)`: `some` of the item list when `v` is iterable
(list, tuple or string, the iterable shapes of `PyValue`), `none` when the
call raises `TypeError`.  Iterating a string yields its one-character
strings. -/
def PyValue.asIter : PyValue → Option (List PyValue)
  | .list xs => some xs
  | .tuple xs => some xs
  | .str s => some (s.data.map fun c => .str (String.mk [c]))
  | _ => Option.none

/-- The check `isinstance(v, (list, tuple))`. -/
def PyValue.isListOrTuple : PyValue → Bool
  | .list _ => true
  | .tuple _ => true
  | _ => false

/-- Value of a nonempty run of decimal digits; `none` when the list is
empty or holds a non-digit. -/
def digitsVal (cs : List Char) : Option Nat :=
  if cs.isEmpty then none
  else
    cs.foldl
      (fun acc c =>
        match acc with
        | some a => if c.isDigit then some (a * 10 + (c.toNat - 48)) else none
        | none => none)
      (some 0)

/-- Leading and trailing whitespace stripped, as `int(str)` does before
parsing. -/
def stripSpaces (cs : List Char) : List Char :=
  ((cs.dropWhile fun c => c.isWhitespace).reverse.dropWhile fun c =>
      c.isWhitespace).reverse

/-- Parse of a decimal integer literal with optional sign, Python style:
`none` models `int(s)` raising `ValueError`. -/
def pyParseInt (s : String) : Option Int :=
  match stripSpaces s.data with
  | '-' :: rest => (digitsVal rest).map fun n => -(n : Int)
  | '+' :: rest => (digitsVal rest).map fun n => (n : Int)
  | cs => (digitsVal cs).map fun n => (n : Int)

/-- The builtin `int(v)`: succeeds on integers, booleans and numeric
strings; raises `ValueError` on a non-numeric string and `TypeError` on
non-number, non-string arguments. -/
def pyInt : PyValue → Except PyErr Int
  | .int n => .ok n
  | .bool b => .ok (if b then 1 else 0)
  | .str s =>
      match pyParseInt s with
      | some n => .ok n
      | none => .error (.valueError ("invalid literal for int(): " ++ s))
  | _ => .error (.typeError "int() argument must be a string or a number")

/-- Abstract database connection handed through by the host ORM. -/
structure Connection where
  connAlias : String := "default"
deriving Repr, DecidableEq

/-- Abstract output style (`django.core.management.color`); the module
only passes it through. -/
structure Style where
  styleName : String := "no_style"
deriving Repr, DecidableEq

/-- The element codec held in `self._of`: a Python object seen through the
attributes the array module reads.  Each attribute is optional; `none`
models the attribute being absent on the object (`hasattr` false, and an
access raises `AttributeError`).  The attribute functions themselves are
abstract and total: they belong to external element codec
implementations, not to this repository. -/
structure ElementCodec where
  db_type : Option (Connection → String) := none
  get_prep_value : Option (PyValue → PyValue) := none
  to_python : Option (PyValue → PyValue) := none
  get_prep_lookup : Option (String → PyValue → PyValue) := none
  create_type_sql : Option (Connection → Style → Bool → String) := none

/-- An element codec with no attributes at all. -/
def bareCodec : ElementCodec := {}

/-- Model of the external Django `models.IntegerField`, the default `of`
argument: on a PostgreSQL connection its `db_type` is `"integer"`, and it
prepares and parses values through the builtin `int` coercion (modelled
totally, with failures left as the input value, since only `db_type`
matters to the module under verification). -/
def IntegerField : ElementCodec where
  db_type := some fun _ => "integer"
  get_prep_value := some fun v =>
    match pyInt v with
    | .ok n => .int n
    | .error _ => v
  to_python := some fun v =>
    match pyInt v with
    | .ok n => .int n
    | .error _ => v
  get_prep_lookup := some fun _ v => v

/-- What `self._of` can hold after `__init__`: a resolved element codec,
or the raw South triple left in place when `south_installed` is false. -/
inductive OfValue where
  | codec (e : ElementCodec)
  | rawTriple (qualifiedName : String) (args : List PyValue)
      (kwargs : List (String × PyValue))

/-- The `of` construction argument: a codec instance, a codec class
(modelled by the instance its default instantiation produces), or a South
triple `(qualified_name, args, kwargs)`. -/
inductive OfArg where
  | inst (e : ElementCodec)
  | clazz (defaultInstance : ElementCodec)
  | triple (qualifiedName : String) (args : List PyValue)
      (kwargs : List (String × PyValue))

/-- Keyword arguments forwarded to `Field.__init__`; only `null` is
relevant to this module, `some b` modelling an explicit `null=b`. -/
structure FieldKwargs where
  null : Option Bool := none

/-- The state of an `ArrayField` instance after construction: the stored
subfield `_of` and the `null` flag the `Field` superclass recorded. -/
structure ArrayField where
  _of : OfValue
  null : Bool

/-- `ArrayField.__init__`.  A South triple is resolved through the South
name lookup (`southResolve`, an abstraction of the external
`south.utils.ask_for_it_by_name`) only when South is installed; a class
is instantiated with default configuration; the null kwarg is
overwritten with `True` before the superclass stores it.  The body raises
nothing, hence the result is always `Except.ok`. -/
def ArrayField.init (southInstalled : Bool)
    (southResolve : String → List PyValue → List (String × PyValue) →
      ElementCodec)
    (kwargs : FieldKwargs)
    (of : OfArg := OfArg.clazz IntegerField) : Except PyErr ArrayField :=
  let resolved : OfArg :=
    match of with
    | .triple n args kw =>
        if southInstalled then .inst (southResolve n args kw)
        else .triple n args kw
    | o => o
  let stored : OfValue :=
    match resolved with
    | .inst e => .codec e
    | .clazz d => .codec d
    | .triple n args kw => .rawTriple n args kw
  let kwargs2 : FieldKwargs := { kwargs with null := some true }
  .ok { _of := stored, null := kwargs2.null.getD false }

/-- `ArrayField.db_type`: the SQL type of the subfield with `[]`
appended.  Reading `db_type` off a stored raw triple or off a codec
without that attribute raises `AttributeError`. -/
def ArrayField.db_type (f : ArrayField) (conn : Connection) :
    Except PyErr String :=
  match f._of with
  | .rawTriple _ _ _ =>
      .error (.attributeError "tuple object has no attribute db_type")
  | .codec e =>
      match e.db_type with
      | some dt => .ok (dt conn ++ "[]")
      | none => .error (.attributeError "db_type")

/-- `ArrayField.create_type_sql`: delegates to the subfield when it has a
`create_type_sql` attribute, otherwise returns the empty string. -/
def ArrayField.create_type_sql (f : ArrayField) (conn : Connection)
    (style : Style := {}) (only_if_not_exists : Bool := false) :
    Except PyErr String :=
  match f._of with
  | .rawTriple _ _ _ => .ok ""
  | .codec e =>
      match e.create_type_sql with
      | some g => .ok (g conn style only_if_not_exists)
      | none => .ok ""

/-- `ArrayField.get_db_lookup_expression`: the SQL template for a lookup
kind, `none` for an unsupported kind (the Python function falls through
and returns `None`). -/
def ArrayField.get_db_lookup_expression (f : ArrayField)
    (lookup_type : String) (value : PyValue) (conn : Connection) :
    Except PyErr (Option String) :=
  if lookup_type = "exact" then
    (f.db_type conn).map fun t => some ("{field} = {value}::" ++ t)
  else if lookup_type = "contains" then
    if value.isListOrTuple then
      (f.db_type conn).map fun t => some ("{field} @> {value}::" ++ t)
    else .ok (some "{value} = ANY({field})")
  else if lookup_type = "len" then
    .ok (some "{value} = ARRAY_LENGTH({field}, 1)")
  else .ok none

/-- The comprehension mapping each item i of the operand through the
subfield call self._of.get_prep_lookup("exact", i), building a new
list: the attribute is only touched once the loop body runs, so an
empty list succeeds even without the attribute. -/
def ArrayField.elemLookupList (f : ArrayField) (xs : List PyValue) :
    Except PyErr (List PyValue) :=
  match f._of with
  | .rawTriple _ _ _ =>
      if xs.isEmpty then .ok []
      else .error (.attributeError "tuple object has no attribute get_prep_lookup")
  | .codec e =>
      match e.get_prep_lookup with
      | some elk => .ok (xs.map fun i => elk "exact" i)
      | none =>
          if xs.isEmpty then .ok []
          else .error (.attributeError "get_prep_lookup")

/-- `ArrayField.get_prep_lookup`.  `sup` abstracts the external
`Field.get_prep_lookup` of the Django superclass (total: its behaviour is
outside this repository).  `len` coerces the operand through `int`,
turning a `ValueError` into `TypeError` with the documented message and
letting other exceptions of `int` propagate; kinds outside exact,
contains and len raise `TypeError`; list and tuple operands are mapped
element-wise through the subfield lookup preparation before the
superclass call. -/
def ArrayField.get_prep_lookup (sup : String → PyValue → PyValue)
    (f : ArrayField) (lookup_type : String) (value : PyValue) :
    Except PyErr PyValue :=
  if lookup_type = "len" then
    match pyInt value with
    | .ok n => .ok (.int n)
    | .error (.valueError _) =>
        .error (.typeError "__len only supports integers.")
    | .error e => .error e
  else if lookup_type = "exact" ∨ lookup_type = "contains" then
    match value with
    | .list xs =>
        (f.elemLookupList xs).map fun ys => sup lookup_type (.list ys)
    | .tuple xs =>
        (f.elemLookupList xs).map fun ys => sup lookup_type (.list ys)
    | v => .ok (sup lookup_type v)
  else .error (.typeError ("Unsupported lookup type: " ++ lookup_type))

/-- `ArrayField.get_prep_value`: a falsy value yields the empty list
before the subfield is ever touched; otherwise the items of `list(value)`
are each run through the subfield `get_prep_value` (the attribute read
happens inside the loop, so an empty iteration would succeed without
it). -/
def ArrayField.get_prep_value (f : ArrayField) (value : PyValue) :
    Except PyErr PyValue :=
  if value.falsy then .ok (.list [])
  else
    match value.asIter with
    | none => .error (.typeError "object is not iterable")
    | some items =>
        match f._of with
        | .rawTriple _ _ _ =>
            if items.isEmpty then .ok (.list [])
            else .error (.attributeError "tuple object has no attribute get_prep_value")
        | .codec e =>
            match e.get_prep_value with
            | some prep => .ok (.list (items.map prep))
            | none =>
                if items.isEmpty then .ok (.list [])
                else .error (.attributeError "get_prep_value")

/-- `ArrayField.to_python`.  A list is mapped element-wise through the
subfield `to_python`.  The source function has no branch for any other
input: control falls off the end of the function body, so Python returns
`None` for every non-list value. -/
def ArrayField.to_python (f : ArrayField) (value : PyValue) :
    Except PyErr PyValue :=
  match value with
  | .list xs =>
      match f._of with
      | .rawTriple _ _ _ =>
          if xs.isEmpty then .ok (.list [])
          else .error (.attributeError "tuple object has no attribute to_python")
      | .codec e =>
          match e.to_python with
          | some tp => .ok (.list (xs.map tp))
          | none =>
              if xs.isEmpty then .ok (.list [])
              else .error (.attributeError "to_python")
  | _ => .ok .none

/-- An element codec whose prepare, parse and lookup preparation are all
identities, used to evaluate the field operations at concrete inputs. -/
def idCodec : ElementCodec where
  db_type := some fun _ => "text"
  get_prep_value := some fun v => v
  to_python := some fun v => v
  get_prep_lookup := some fun _ v => v

/-- An element codec exposing `create_type_sql`, as a user-defined enum
type would. -/
def enumCodec : ElementCodec where
  db_type := some fun _ => "mood"
  create_type_sql := some fun _ _ _ => "CREATE TYPE mood AS ENUM ()"

/-- A falsy value iterates to the empty item list (an empty list, tuple
or string is the only falsy iterable shape). -/
theorem falsy_iter_nil (v : PyValue) (items : List PyValue)
    (h1 : v.falsy = true) (h2 : v.asIter = some items) : items = [] := by
  cases v <;> simp_all [PyValue.falsy, PyValue.asIter]

/-- C6: for every element codec that exposes an SQL type, the array
db_type is exactly that SQL type with "[]" appended, and the integer
element codec yields exactly "integer[]". -/
theorem db_type_appends_brackets (e : ElementCodec) (dt : Connection → String)
    (b : Bool) (conn : Connection) (h : e.db_type = some dt) :
    (ArrayField.mk (.codec e) b).db_type conn = .ok (dt conn ++ "[]") ∧
    (ArrayField.mk (.codec IntegerField) b).db_type conn = .ok "integer[]" := by
  constructor
  · simp [ArrayField.db_type, h]
  · simp [ArrayField.db_type, IntegerField]

theorem db_type_appends_brackets_inst :
    (ArrayField.mk (.codec IntegerField) true).db_type {} = .ok "integer[]" :=
  (db_type_appends_brackets IntegerField (fun _ => "integer") true {} rfl).2

/-- C7: every falsy input (None, empty list, empty tuple, empty string,
zero, False) prepares to the empty list, never to a null marker. -/
theorem get_prep_value_falsy_empty (f : ArrayField) (v : PyValue)
    (h : v.falsy = true) : f.get_prep_value v = .ok (.list []) := by
  simp [ArrayField.get_prep_value, h]

theorem get_prep_value_falsy_empty_inst :
    (ArrayField.mk (.codec bareCodec) true).get_prep_value .none =
      .ok (.list []) :=
  get_prep_value_falsy_empty (ArrayField.mk (.codec bareCodec) true) .none rfl

/-- C8: create_type_sql returns the empty string when the element codec
lacks the capability and forwards the element DDL string unchanged, with
the style and only_if_not_exists arguments, when it is present. -/
theorem create_type_sql_delegation (e : ElementCodec) (b : Bool)
    (conn : Connection) (style : Style) (only : Bool) :
    (e.create_type_sql = Option.none →
      (ArrayField.mk (.codec e) b).create_type_sql conn style only = .ok "") ∧
    (∀ g, e.create_type_sql = some g →
      (ArrayField.mk (.codec e) b).create_type_sql conn style only =
        .ok (g conn style only)) := by
  constructor
  · intro h
    simp [ArrayField.create_type_sql, h]
  · intro g h
    simp [ArrayField.create_type_sql, h]

theorem create_type_sql_delegation_inst :
    (ArrayField.mk (.codec bareCodec) true).create_type_sql {} {} false =
        .ok "" ∧
    (ArrayField.mk (.codec enumCodec) true).create_type_sql {} {} false =
        .ok "CREATE TYPE mood AS ENUM ()" :=
  ⟨(create_type_sql_delegation bareCodec true {} {} false).1 rfl,
   (create_type_sql_delegation enumCodec true {} {} false).2 _ rfl⟩

/-- C9: construction always stores null = true, whatever null keyword the
caller supplied (including an explicit null := some false in kwargs). -/
theorem init_forces_null_true (si : Bool)
    (sr : String → List PyValue → List (String × PyValue) → ElementCodec)
    (kw : FieldKwargs) (of : OfArg) :
    ∃ f, ArrayField.init si sr kw of = .ok f ∧ f.null = true := by
  cases of <;> cases si <;> exact ⟨_, rfl, rfl⟩

/-- C10: with no element supplied, the default element is the
IntegerField instance and the resulting SQL type is "integer[]". -/
theorem init_default_integer_element (si : Bool)
    (sr : String → List PyValue → List (String × PyValue) → ElementCodec)
    (kw : FieldKwargs) (conn : Connection) :
    ∃ f, ArrayField.init si sr kw = .ok f ∧
      f._of = OfValue.codec IntegerField ∧ f.db_type conn = .ok "integer[]" :=
  ⟨_, rfl, rfl, rfl⟩

/-- C3 counterexample: constructing the field with an element that has
none of the three minimum capabilities (sql_type, prepare, parse) does
not fail: it returns a field, raising no ConfigurationError. -/
theorem init_bare_element_succeeds :
    ArrayField.init false (fun _ _ _ => bareCodec) {} (.inst bareCodec) =
        .ok { _of := .codec bareCodec, null := true } ∧
    bareCodec.db_type = Option.none ∧
    bareCodec.get_prep_value = Option.none ∧
    bareCodec.to_python = Option.none :=
  ⟨rfl, rfl, rfl, rfl⟩

/-- C3 amended: construction never fails; no capability validation is
performed on the element. -/
theorem init_never_fails (si : Bool)
    (sr : String → List PyValue → List (String × PyValue) → ElementCodec)
    (kw : FieldKwargs) (of : OfArg) :
    ∃ f, ArrayField.init si sr kw of = .ok f := by
  cases of <;> cases si <;> exact ⟨_, rfl⟩

/-- C2: at the failing input "abc" (a non-list value), to_python returns
None rather than the input unchanged: the source function has no non-list
branch and falls off the end. -/
theorem to_python_nonlist_yields_none :
    (ArrayField.mk (.codec IntegerField) true).to_python (.str "abc") =
        .ok PyValue.none ∧
    (Except.ok PyValue.none : Except PyErr PyValue) ≠ .ok (.str "abc") :=
  ⟨rfl, by simp⟩

/-- C1: for every element codec with prepare and parse, and every ordered
sequence input (list, tuple, or other iterable shape) with item list
`items`, parsing the prepared value yields the list obtained by running
each item, in order, through the element prepare followed by the element
parse: order and duplicates are preserved element-wise. -/
theorem roundtrip_elementwise (e : ElementCodec) (prep tp : PyValue → PyValue)
    (b : Bool) (v : PyValue) (items : List PyValue)
    (h1 : e.get_prep_value = some prep) (h2 : e.to_python = some tp)
    (h3 : v.asIter = some items) :
    Except.bind ((ArrayField.mk (.codec e) b).get_prep_value v)
        ((ArrayField.mk (.codec e) b).to_python) =
      .ok (.list (items.map fun x => tp (prep x))) := by
  by_cases hf : v.falsy = true
  · have hnil : items = [] := falsy_iter_nil v items hf h3
    subst hnil
    simp [ArrayField.get_prep_value, hf, ArrayField.to_python, h2, Except.bind]
  · simp only [Bool.not_eq_true] at hf
    simp [ArrayField.get_prep_value, hf, h3, h1, ArrayField.to_python, h2,
      Except.bind, List.map_map, Function.comp]

theorem roundtrip_elementwise_inst :
    Except.bind ((ArrayField.mk (.codec idCodec) true).get_prep_value
        (.list [.int 3, .int 1, .int 2]))
      ((ArrayField.mk (.codec idCodec) true).to_python) =
      .ok (.list [.int 3, .int 1, .int 2]) :=
  roundtrip_elementwise idCodec _ _ true (.list [.int 3, .int 1, .int 2])
    [.int 3, .int 1, .int 2] rfl rfl rfl

/-- The builtin int never raises AttributeError: it yields a value, a
TypeError or a ValueError. -/
theorem pyInt_shape (v : PyValue) :
    (∃ n, pyInt v = .ok n) ∨ (∃ m, pyInt v = .error (.typeError m)) ∨
      (∃ m, pyInt v = .error (.valueError m)) := by
  cases v with
  | str s =>
      cases h : pyParseInt s with
      | none =>
          exact Or.inr (Or.inr ⟨"invalid literal for int(): " ++ s,
            by simp [pyInt, h]⟩)
      | some n => exact Or.inl ⟨n, by simp [pyInt, h]⟩
  | int n => exact Or.inl ⟨n, rfl⟩
  | bool b => exact Or.inl ⟨_, rfl⟩
  | none => exact Or.inr (Or.inl ⟨_, rfl⟩)
  | list xs => exact Or.inr (Or.inl ⟨_, rfl⟩)
  | tuple xs => exact Or.inr (Or.inl ⟨_, rfl⟩)

/-- C4: lookup preparation raises TypeError (the InvalidLookupError of
the spec) exactly when the kind is outside exact, contains and len, or
the kind is len with an operand the builtin int rejects; len with a
convertible operand returns the integer, and exact and contains succeed
(the external superclass preparation and the element lookup preparation
being total). -/
theorem get_prep_lookup_error_spec (sup : String → PyValue → PyValue)
    (e : ElementCodec) (elk : String → PyValue → PyValue) (b : Bool)
    (v : PyValue) (h : e.get_prep_lookup = some elk) :
    (∀ kind, kind ≠ "exact" → kind ≠ "contains" → kind ≠ "len" →
      ArrayField.get_prep_lookup sup (ArrayField.mk (.codec e) b) kind v =
        .error (.typeError ("Unsupported lookup type: " ++ kind))) ∧
    (∀ n, pyInt v = .ok n →
      ArrayField.get_prep_lookup sup (ArrayField.mk (.codec e) b) "len" v =
        .ok (.int n)) ∧
    ((∀ n, pyInt v ≠ .ok n) →
      ∃ m, ArrayField.get_prep_lookup sup (ArrayField.mk (.codec e) b) "len" v =
        .error (.typeError m)) ∧
    (∃ r, ArrayField.get_prep_lookup sup (ArrayField.mk (.codec e) b)
        "exact" v = .ok r) ∧
    (∃ r, ArrayField.get_prep_lookup sup (ArrayField.mk (.codec e) b)
        "contains" v = .ok r) := by
  refine ⟨?_, ?_, ?_, ?_, ?_⟩
  · intro kind hk1 hk2 hk3
    simp [ArrayField.get_prep_lookup, hk1, hk2, hk3]
  · intro n hn
    simp [ArrayField.get_prep_lookup, hn]
  · intro hno
    rcases pyInt_shape v with ⟨n, hn⟩ | ⟨m, hm⟩ | ⟨m, hm⟩
    · exact absurd hn (hno n)
    · exact ⟨m, by simp [ArrayField.get_prep_lookup, hm]⟩
    · exact ⟨"__len only supports integers.",
        by simp [ArrayField.get_prep_lookup, hm]⟩
  · cases v <;>
      simp [ArrayField.get_prep_lookup, ArrayField.elemLookupList, h,
        Except.map]
  · cases v <;>
      simp [ArrayField.get_prep_lookup, ArrayField.elemLookupList, h,
        Except.map]

theorem get_prep_lookup_error_spec_inst :
    ArrayField.get_prep_lookup (fun _ w => w)
        (ArrayField.mk (.codec idCodec) true) "len" (.str "4") =
      .ok (.int 4) ∧
    (∃ m, ArrayField.get_prep_lookup (fun _ w => w)
        (ArrayField.mk (.codec idCodec) true) "len" (.str "abc") =
      .error (.typeError m)) ∧
    ArrayField.get_prep_lookup (fun _ w => w)
        (ArrayField.mk (.codec idCodec) true) "startswith" (.int 5) =
      .error (.typeError "Unsupported lookup type: startswith") := by
  refine ⟨?_, ?_, ?_⟩
  · exact (get_prep_lookup_error_spec (fun _ w => w) idCodec _ true
      (.str "4") rfl).2.1 4 rfl
  · refine (get_prep_lookup_error_spec (fun _ w => w) idCodec _ true
      (.str "abc") rfl).2.2.1 ?_
    intro n hn
    rw [show pyInt (.str "abc") =
        .error (.valueError "invalid literal for int(): abc") from rfl] at hn
    exact Except.noConfusion hn
  · exact (get_prep_lookup_error_spec (fun _ w => w) idCodec _ true
      (.int 5) rfl).1 "startswith" (by decide) (by decide) (by decide)

/-- C5: for a contains lookup, a list or tuple comparison value yields
the containment template with the explicit array-type cast, and any other
(scalar) value yields the ANY membership template. -/
theorem contains_lookup_expression_spec (e : ElementCodec)
    (dt : Connection → String) (b : Bool) (conn : Connection) (v : PyValue)
    (h : e.db_type = some dt) :
    (v.isListOrTuple = true →
      (ArrayField.mk (.codec e) b).get_db_lookup_expression "contains" v conn =
        .ok (some ("{field} @> {value}::" ++ dt conn ++ "[]"))) ∧
    (v.isListOrTuple = false →
      (ArrayField.mk (.codec e) b).get_db_lookup_expression "contains" v conn =
        .ok (some "{value} = ANY({field})")) := by
  constructor <;> intro hv <;>
    simp [ArrayField.get_db_lookup_expression, ArrayField.db_type, hv, h,
      Except.map, String.append_assoc]

theorem contains_lookup_expression_spec_inst :
    (ArrayField.mk (.codec IntegerField) true).get_db_lookup_expression
        "contains" (.list [.int 1, .int 2, .int 3]) {} =
      .ok (some "{field} @> {value}::integer[]") ∧
    (ArrayField.mk (.codec IntegerField) true).get_db_lookup_expression
        "contains" (.int 5) {} =
      .ok (some "{value} = ANY({field})") :=
  ⟨(contains_lookup_expression_spec IntegerField (fun _ => "integer") true {}
      (.list [.int 1, .int 2, .int 3]) rfl).1 rfl,
   (contains_lookup_expression_spec IntegerField (fun _ => "integer") true {}
      (.int 5) rfl).2 rfl⟩

end DjangoPG
